import Mathlib

/-!
Shallow embedding of the Ride Matching & Real-Time Dispatch core of the
ridesharing application, translated from:
  - backend/services/ride-service/handler.js   (requestRide, acceptRide,
    updateRideStatus, calculateDistance, calculateEstimatedFare)
  - backend/services/driver-service/handler.js (getNearbyDrivers,
    getDriverProfile, generateLocationHash, generateNearbyLocationHashes,
    calculateDistance)
  - backend/services/websocket-service/handler.js (connect, disconnect,
    handleLocationUpdate, handleRideStatusUpdate, getUserConnections)
  - backend/shared/utils (validateToken built on jwt.decode)

Conventions of the embedding:
  - Coordinates are rationals (ℚ); the trigonometric haversine distance is a
    real number (ℝ).  JavaScript numbers are IEEE doubles; none of the claims
    below is sensitive to rounding at the inputs used.
  - DynamoDB tables are association lists keyed by the table's key attribute;
    `get` is `find?`, `put` overwrites by key, `update` rewrites the item in
    place (handlers only update items they have just read, except for the
    connections table, where the upsert behaviour of DynamoDB `update` is
    modelled explicitly).
  - `async`/`await` boundaries matter only for `acceptRide` (claim about
    concurrent acceptance); that handler is additionally embedded as a small
    step machine, one step per `await`ed storage operation, together with an
    interleaving scheduler.  All other handlers run uninterfered and are
    embedded as plain functions.
  - Timestamps (`new Date().toISOString()`) are passed in as an explicit
    `now : String` argument.
-/

set_option maxRecDepth 10000
set_option maxHeartbeats 1000000

namespace Rideshare

/-! ## Geometry: Math.atan2 and the haversine distance

`calculateDistance` appears verbatim in both the ride-service and the
driver-service handler (lines 578-587 resp. 283-292). -/

/-- JavaScript Math.atan2, restricted to the real plane. -/
noncomputable def atan2 (y x : ℝ) : ℝ :=
  if 0 < x then Real.arctan (y / x)
  else if x < 0 ∧ 0 ≤ y then Real.arctan (y / x) + Real.pi
  else if x < 0 ∧ y < 0 then Real.arctan (y / x) - Real.pi
  else if x = 0 ∧ 0 < y then Real.pi / 2
  else if x = 0 ∧ y < 0 then -(Real.pi / 2)
  else 0

/-- `calculateDistance(lat1, lon1, lat2, lon2)`: haversine distance in km,
Earth radius 6371 km. -/
noncomputable def calculateDistance (lat1 lon1 lat2 lon2 : ℚ) : ℝ :=
  let R : ℝ := 6371
  let dLat : ℝ := ((lat2 : ℝ) - (lat1 : ℝ)) * Real.pi / 180
  let dLon : ℝ := ((lon2 : ℝ) - (lon1 : ℝ)) * Real.pi / 180
  let a : ℝ := Real.sin (dLat / 2) * Real.sin (dLat / 2) +
    Real.cos ((lat1 : ℝ) * Real.pi / 180) * Real.cos ((lat2 : ℝ) * Real.pi / 180) *
    (Real.sin (dLon / 2) * Real.sin (dLon / 2))
  let c : ℝ := 2 * atan2 (Real.sqrt a) (Real.sqrt (1 - a))
  R * c

/-- `calculateEstimatedFare`: per-km rate table with fallback to the
standard rate for unknown ride types (`perKmRate[rideType] || perKmRate.standard`). -/
noncomputable def perKmRate (rideType : String) : ℝ :=
  if rideType = "standard" then 12 / 10
  else if rideType = "premium" then 2
  else if rideType = "pool" then 8 / 10
  else 12 / 10

/-- `calculateEstimatedFare(distanceKm, rideType) = baseFare + distanceKm * rate`. -/
noncomputable def calculateEstimatedFare (distanceKm : ℝ) (rideType : String) : ℝ :=
  let baseFare : ℝ := 25 / 10
  baseFare + distanceKm * perKmRate rideType

/-! ## Geospatial bucketing (driver-service handler.js lines 255-280) -/

/-- `generateLocationHash(lat, lng)` returns the string
`${Math.floor(lat*100)}_${Math.floor(lng*100)}`; the string format is
injective on integer pairs, so the hash is embedded as the pair itself. -/
def generateLocationHash (lat lng : ℚ) : ℤ × ℤ :=
  (⌊lat * 100⌋, ⌊lng * 100⌋)

/-- Inclusive integer range `[lo..hi]` (empty when `hi < lo`), the index set
of the JavaScript `for (let i = lo; i <= hi; i++)` loop. -/
def intRangeIncl (lo hi : ℤ) : List ℤ :=
  (List.range (hi - lo + 1).toNat).map (fun k => lo + k)

/-- Insertion into a JavaScript `Set`, preserving first-insertion order. -/
def addHash (acc : List (ℤ × ℤ)) (h : ℤ × ℤ) : List (ℤ × ℤ) :=
  if h ∈ acc then acc else acc ++ [h]

/-- `generateNearbyLocationHashes(lat, lng, radiusKm)`:
`gridSize = 0.01`, `steps = Math.ceil(radiusKm / 111.32)`, then the set of
hashes of `(lat + i*gridSize, lng + j*gridSize)` for `i, j ∈ [-steps..steps]`. -/
def generateNearbyLocationHashes (lat lng radiusKm : ℚ) : List (ℤ × ℤ) :=
  let gridSize : ℚ := 1 / 100
  let steps : ℤ := ⌈radiusKm / (11132 / 100)⌉
  (((intRangeIncl (-steps) steps).flatMap (fun (i : ℤ) =>
    (intRangeIncl (-steps) steps).map (fun (j : ℤ) =>
      generateLocationHash (lat + (i : ℚ) * gridSize) (lng + (j : ℚ) * gridSize))))).foldl addHash []

/-! ## Data model -/

/-- A pickup/dropoff point as validated by the Joi `ride` schema. -/
structure GeoPoint where
  lat : ℚ
  lng : ℚ
  address : String
  deriving DecidableEq, Repr

/-- A point of the drivers' `location` attribute. -/
structure Location where
  lat : ℚ
  lng : ℚ
  deriving DecidableEq, Repr

/-- An item of the rides table, as created by `requestRide`. -/
structure Ride where
  rideId : String
  userId : String
  driverId : Option String
  status : String
  rideType : String
  pickupLocation : GeoPoint
  dropoffLocation : GeoPoint
  estimatedDistance : ℝ
  estimatedFare : ℝ
  actualFare : Option ℝ
  createdAt : String
  matchedAt : Option String
  startedAt : Option String
  completedAt : Option String
  updatedAt : Option String

/-- An item of the drivers table, as created by `registerDriver` (fields the
embedded handlers never read or write are omitted). -/
structure Driver where
  driverId : String
  licenseNumber : String
  status : String
  rating : ℚ
  totalRides : ℤ
  isActive : Bool
  location : Option Location
  locationHash : Option (ℤ × ℤ)
  updatedAt : Option String
  deriving DecidableEq, Repr

/-- An item of the connections table.  All attributes other than the key are
optional because a DynamoDB `update` on an absent key creates a partial item. -/
structure Connection where
  connectionId : String
  userId : Option String
  userType : Option String
  connectedAt : Option String
  lastActivity : Option String
  disconnectedAt : Option String
  deriving DecidableEq, Repr

/-- The durable stores the handlers touch. -/
structure DB where
  rides : List Ride
  drivers : List Driver
  connections : List Connection

def DB.getRide (db : DB) (rideId : String) : Option Ride :=
  db.rides.find? (fun r => r.rideId == rideId)

def DB.getDriver (db : DB) (driverId : String) : Option Driver :=
  db.drivers.find? (fun d => d.driverId == driverId)

/-- DynamoDB `put`: overwrite the item with the same key, else append. -/
def DB.putRide (db : DB) (ride : Ride) : DB :=
  if db.rides.any (fun r => r.rideId == ride.rideId) then
    { db with rides := db.rides.map (fun r => if r.rideId == ride.rideId then ride else r) }
  else
    { db with rides := db.rides ++ [ride] }

/-- DynamoDB `update` on the rides table.  The handlers below only update
rides they have just read, so the upsert case cannot arise for rides. -/
def DB.updateRide (db : DB) (rideId : String) (f : Ride → Ride) : DB :=
  { db with rides := db.rides.map (fun r => if r.rideId == rideId then f r else r) }

/-- DynamoDB `update` on the drivers table (same remark as `DB.updateRide`). -/
def DB.updateDriver (db : DB) (driverId : String) (f : Driver → Driver) : DB :=
  { db with drivers := db.drivers.map (fun d => if d.driverId == driverId then f d else d) }

/-! ## Bearer tokens (shared utils, validateToken on jwt.decode)

`jwt.decode` base64-decodes the payload of a well-formed token and never
checks the signature, issuer, audience or expiry.  A token is therefore
embedded as its decodable payload (`none` for a syntactically malformed
token) together with a flag recording whether its signature would verify;
`jwtDecode` ignores that flag, exactly as `jwt.decode` does. -/

structure JwtPayload where
  sub : Option String
  email : Option String
  userType : Option String
  deriving DecidableEq, Repr

structure Token where
  payload : Option JwtPayload
  signatureValid : Bool
  deriving DecidableEq, Repr

/-- `jwt.decode(token)`: returns the decoded payload, signature unchecked. -/
def jwtDecode (t : Token) : Option JwtPayload :=
  t.payload

/-- `validateToken(token)`: `jwt.decode`, then reject when `!decoded` or
`!decoded.sub` (absent or empty `sub` is falsy). -/
def validateToken (t : Token) : Except String JwtPayload :=
  match jwtDecode t with
  | none => .error "Token validation failed"
  | some decoded =>
    match decoded.sub with
    | none => .error "Token validation failed"
    | some s => if s = "" then .error "Token validation failed" else .ok decoded

/-! ## Ride service: requestRide (ride-service handler.js lines 246-339) -/

/-- The body of a ride request before Joi validation. -/
structure RideRequestBody where
  pickupLocation : GeoPoint
  dropoffLocation : GeoPoint
  rideType : Option String
  deriving DecidableEq, Repr

/-- The Joi `ride` schema: latitudes in [-90, 90], longitudes in [-180, 180],
addresses required (Joi rejects empty strings by default), `rideType` one of
standard/premium/pool with default standard.  Returns the validated value. -/
def validateRideBody (b : RideRequestBody) : Option (GeoPoint × GeoPoint × String) :=
  let okPoint := fun (p : GeoPoint) =>
    -90 ≤ p.lat && p.lat ≤ 90 && -180 ≤ p.lng && p.lng ≤ 180 && p.address ≠ ""
  let rideType := b.rideType.getD "standard"
  if okPoint b.pickupLocation && okPoint b.dropoffLocation &&
      (rideType == "standard" || rideType == "premium" || rideType == "pool") then
    some (b.pickupLocation, b.dropoffLocation, rideType)
  else
    none

inductive RequestRideResult where
  | serverError
  | validationFailed
  | duplicateActive
  | created (rideId : String) (status : String)
  deriving DecidableEq, Repr

/-- HTTP status code of each `requestRide` outcome. -/
def RequestRideResult.statusCode : RequestRideResult → ℕ
  | .serverError => 500
  | .validationFailed => 400
  | .duplicateActive => 409
  | .created _ _ => 201

/-- `requestRide`: decode the bearer token, validate the body, query the
rider's rides with `status = 'active'` (409 when any), compute the fare
estimate, and `put` a fresh ride in state `requested`.  The fresh uuid and
the timestamp are passed in explicitly. -/
noncomputable def requestRide (db : DB) (token : Token) (body : RideRequestBody)
    (newRideId now : String) : DB × RequestRideResult :=
  match validateToken token with
  | .error _ => (db, .serverError)
  | .ok decoded =>
    let userId := decoded.sub.getD ""
    match validateRideBody body with
    | none => (db, .validationFailed)
    | some (pickup, dropoff, rideType) =>
      match db.rides.filter (fun r => r.userId == userId && r.status == "active") with
      | _ :: _ => (db, .duplicateActive)
      | [] =>
        let estimatedDistance :=
          calculateDistance pickup.lat pickup.lng dropoff.lat dropoff.lng
        let estimatedFare := calculateEstimatedFare estimatedDistance rideType
        let ride : Ride :=
          { rideId := newRideId
            userId := userId
            driverId := none
            status := "requested"
            rideType := rideType
            pickupLocation := pickup
            dropoffLocation := dropoff
            estimatedDistance := estimatedDistance
            estimatedFare := estimatedFare
            actualFare := none
            createdAt := now
            matchedAt := none
            startedAt := none
            completedAt := none
            updatedAt := none }
        (db.putRide ride, .created newRideId "requested")

/-! ## Ride service: acceptRide (ride-service handler.js lines 342-429)

The handler performs four `await`ed storage operations in order: get the
ride (then check `status !== 'requested'`), get the driver (then check
`status !== 'available'`), update the ride (set `driverId`, `status =
'matched'`, `matchedAt` — with no condition expression), and update the
driver to `busy`.  It is embedded as a step machine with one step per
storage operation, so that interleavings of concurrent calls can be
expressed; `acceptRideSeq` runs all steps of one call back to back. -/

inductive AcceptResult where
  | serverError        -- 500, token did not decode
  | rideNotFound       -- 404 Ride not found
  | rideUnavailable    -- 409 Ride is no longer available (AlreadyMatched)
  | driverUnavailable  -- 409 Driver is not available
  | accepted           -- 200 Ride accepted successfully
  deriving DecidableEq, Repr

inductive AcceptPhase where
  | start
  | gotRide (ride : Ride)
  | gotDriver (ride : Ride)
  | wroteRide (ride : Ride)
  | done (result : AcceptResult)

/-- `none` while the call is still in flight, `some r` once it returned. -/
def AcceptPhase.result? : AcceptPhase → Option AcceptResult
  | .done r => some r
  | _ => none

/-- One storage round-trip of `acceptRide` for the driver `driverId`
authenticated by the token, against the current store contents. -/
def acceptStep (db : DB) (driverId rideId now : String) :
    AcceptPhase → DB × AcceptPhase
  | .start =>
    match db.getRide rideId with
    | none => (db, .done .rideNotFound)
    | some ride =>
      if ride.status ≠ "requested" then (db, .done .rideUnavailable)
      else (db, .gotRide ride)
  | .gotRide ride =>
    match db.getDriver driverId with
    | none => (db, .done .driverUnavailable)
    | some driver =>
      if driver.status ≠ "available" then (db, .done .driverUnavailable)
      else (db, .gotDriver ride)
  | .gotDriver ride =>
    (db.updateRide rideId (fun r =>
      { r with driverId := some driverId, status := "matched", matchedAt := some now }),
     .wroteRide ride)
  | .wroteRide _ride =>
    (db.updateDriver driverId (fun d =>
      { d with status := "busy", updatedAt := some now }),
     .done .accepted)
  | .done r => (db, .done r)

/-- One in-flight `acceptRide` call: its authenticated driver, the target
ride, its timestamp source and its current phase. -/
structure AcceptCall where
  driverId : String
  rideId : String
  now : String
  phase : AcceptPhase

/-- Let call number `i` perform its next storage operation (no-op for an
out-of-range index or a finished call). -/
def schedStep (s : DB × List AcceptCall) (i : ℕ) : DB × List AcceptCall :=
  match s.2[i]? with
  | none => s
  | some c =>
    let next := acceptStep s.1 c.driverId c.rideId c.now c.phase
    (next.1, s.2.set i { c with phase := next.2 })

/-- Run concurrent `acceptRide` calls under an explicit interleaving: the
schedule lists, tick by tick, which call performs its next storage
operation.  Every interleaving of the calls' storage operations is the run
of some schedule. -/
def runSchedule (db : DB) (calls : List AcceptCall) (sched : List ℕ) :
    DB × List AcceptCall :=
  sched.foldl schedStep (db, calls)

/-- Run the phases of a single `acceptRide` call to completion (a call
finishes in at most four steps; the fuel is statically sufficient). -/
def runAccept : ℕ → DB → String → String → String → AcceptPhase → DB × AcceptPhase
  | 0, db, _, _, _, ph => (db, ph)
  | n + 1, db, driverId, rideId, now, ph =>
    match acceptStep db driverId rideId now ph with
    | (db1, .done r) => (db1, .done r)
    | (db1, ph1) => runAccept n db1 driverId rideId now ph1

/-- `acceptRide` run without interference (the sequential semantics). -/
def acceptRideSeq (db : DB) (token : Token) (rideId now : String) :
    DB × AcceptResult :=
  match validateToken token with
  | .error _ => (db, .serverError)
  | .ok decoded =>
    let driverId := decoded.sub.getD ""
    match runAccept 4 db driverId rideId now .start with
    | (db1, .done r) => (db1, r)
    | (db1, _) => (db1, .serverError)

/-! ## Ride service: updateRideStatus (ride-service handler.js lines 432-536) -/

inductive UpdateResult where
  | serverError     -- 500
  | invalidStatus   -- 400, not in the validStatuses list
  | rideNotFound    -- 404
  | unauthorized    -- 403, caller neither the rider nor the assigned driver
  | updated         -- 200
  deriving DecidableEq, Repr

def validStatuses : List String :=
  ["en-route", "arrived", "in-progress", "completed", "cancelled"]

/-- `updateRideStatus`: decode the token, check the target status is in
`validStatuses`, get the ride, check the caller is the rider or the assigned
driver, write the update object built from the snapshot (status, updatedAt,
plus startedAt / completedAt / actualFare depending on the target status),
and on `completed` with an assigned driver set that driver back to
`available` and bump `totalRides`.  No check of the current state is made.
(JavaScript also treats an `actualFare` of numeric 0 as unset; the claims
never exercise a zero fare.) -/
def updateRideStatus (db : DB) (token : Token) (rideId status now : String) :
    DB × UpdateResult :=
  match validateToken token with
  | .error _ => (db, .serverError)
  | .ok decoded =>
    let userId := decoded.sub.getD ""
    if status ∉ validStatuses then (db, .invalidStatus)
    else
      match db.getRide rideId with
      | none => (db, .rideNotFound)
      | some ride =>
        if ride.userId ≠ userId ∧ ride.driverId ≠ some userId then
          (db, .unauthorized)
        else
          let setActual := status == "completed" && ride.actualFare.isNone
          let db1 := db.updateRide rideId (fun r =>
            { r with
              status := status
              updatedAt := some now
              startedAt := if status == "in-progress" then some now else r.startedAt
              completedAt := if status == "completed" then some now else r.completedAt
              actualFare := if setActual then some ride.estimatedFare else r.actualFare })
          let db2 :=
            if status == "completed" then
              match ride.driverId with
              | some dId =>
                if dId = "" then db1
                else
                  db1.updateDriver dId (fun d =>
                    { d with
                      status := "available"
                      totalRides := d.totalRides + 1
                      updatedAt := some now })
              | none => db1
            else db1
          (db2, .updated)

/-! ## Driver service: getNearbyDrivers (driver-service handler.js lines 180-253) -/

/-- An element of the `drivers` array of the `getNearbyDrivers` response:
the whole stored driver record spread together with a `distance` field
(`{ ...driver, distance }`). -/
structure RankedDriver where
  driver : Driver
  distance : ℝ

/-- The distance the handler computes for a driver that passed the
`driver.location` check (junk value 0 for the unreachable location-less case). -/
noncomputable def locatedDistance (lat lng : ℚ) (d : Driver) : ℝ :=
  match d.location with
  | some loc => calculateDistance lat lng loc.lat loc.lng
  | none => 0

/-- The bucket pre-filter stage of `getNearbyDrivers` (lines 199-213): for
each hash of the search ring, the drivers of that bucket that are
`available` and active, concatenated in ring order. -/
def bucketCandidates (db : DB) (lat lng radius : ℚ) : List Driver :=
  (generateNearbyLocationHashes lat lng radius).flatMap (fun h =>
    db.drivers.filter (fun d =>
      d.locationHash == some h && d.status == "available" && d.isActive))

/-- The per-driver check of the exact-distance filter (lines 217-224):
`if (!driver.location) return false; return distance <= radius`. -/
noncomputable def withinRadius (lat lng radius : ℚ) (d : Driver) : Bool :=
  match d.location with
  | none => false
  | some loc =>
    @decide (calculateDistance lat lng loc.lat loc.lng ≤ (radius : ℝ))
      (Classical.propDecidable _)

/-- The comparator score `rating * 0.3 - distance * 0.7`; the JavaScript
sort comparator `scoreB - scoreA` orders the array descending by score. -/
noncomputable def driverScore (rd : RankedDriver) : ℝ :=
  (rd.driver.rating : ℝ) * (3 / 10) - rd.distance * (7 / 10)

/-- Descending-score order used for the ranking. -/
noncomputable def scoreGE (a b : RankedDriver) : Prop :=
  driverScore b ≤ driverScore a

/-- `getNearbyDrivers(lat, lng, radius)` (radius defaults to 5 at the call
boundary): bucket pre-filter, exact-distance filter, attach `distance`,
sort descending by score, return the top 10.  JavaScript `Array.sort`
produces a sorted permutation; it is embedded as insertion sort. -/
noncomputable def getNearbyDrivers (db : DB) (lat lng radius : ℚ) : List RankedDriver :=
  letI : DecidableRel scoreGE := fun _ _ => Classical.propDecidable _
  let valid := (bucketCandidates db lat lng radius).filter (withinRadius lat lng radius)
  let ranked := valid.map (fun d => RankedDriver.mk d (locatedDistance lat lng d))
  (ranked.insertionSort scoreGE).take 10

/-! ## Driver service: getDriverProfile (driver-service handler.js lines 149-177) -/

/-- `'***' + licenseNumber.slice(-4)` (the whole string when shorter than 4). -/
def maskLicense (s : String) : String :=
  "***" ++ s.drop (s.length - 4)

inductive ProfileResult where
  | serverError
  | notFound
  | profile (driver : Driver)
  deriving DecidableEq, Repr

/-- `getDriverProfile`: the caller's own driver record with the
`licenseNumber` masked to its last four characters. -/
def getDriverProfile (db : DB) (token : Token) : ProfileResult :=
  match validateToken token with
  | .error _ => .serverError
  | .ok decoded =>
    let driverId := decoded.sub.getD ""
    match db.getDriver driverId with
    | none => .notFound
    | some driver =>
      .profile { driver with licenseNumber := maskLicense driver.licenseNumber }

/-! ## Websocket service (websocket-service handler.js)

Deliveries are the `postToConnection` calls a handler issues, as
(connectionId, message) pairs; the transport is taken as accepting them
(the 410/403 deregister side effect is not exercised by the claims). -/

/-- A message posted to a connection. -/
structure OutMessage where
  type : String
  rideId : String
  userId : Option String
  location : Option Location
  status : Option String
  message : Option String
  timestamp : String
  deriving DecidableEq, Repr

/-- `connect` (lines 7-37): store a fresh live connection record. -/
def connect (db : DB) (connectionId userId userType now : String) : DB × ℕ :=
  let conn : Connection :=
    { connectionId := connectionId
      userId := some userId
      userType := some userType
      connectedAt := some now
      lastActivity := some now
      disconnectedAt := none }
  if db.connections.any (fun c => c.connectionId == connectionId) then
    ({ db with connections := db.connections.map (fun c =>
        if c.connectionId == connectionId then conn else c) }, 200)
  else
    ({ db with connections := db.connections ++ [conn] }, 200)

/-- The effect of `SET disconnectedAt = now` on one stored connection. -/
def markDisc (connectionId now : String) (c : Connection) : Connection :=
  if c.connectionId == connectionId then { c with disconnectedAt := some now } else c

/-- The partial item a DynamoDB `update` creates for an absent key: only
the key and the SET attribute exist. -/
def discOnly (connectionId now : String) : Connection :=
  { connectionId := connectionId, userId := none, userType := none,
    connectedAt := none, lastActivity := none, disconnectedAt := some now }

/-- `disconnect` (lines 40-60): unconditionally `SET disconnectedAt = now`
on the connection id; a DynamoDB update on an absent key creates the item.
Always answers 200. -/
def disconnect (db : DB) (connectionId now : String) : DB × ℕ :=
  if db.connections.any (fun c => c.connectionId == connectionId) then
    ({ db with connections := db.connections.map (markDisc connectionId now) }, 200)
  else
    ({ db with connections := db.connections ++ [discOnly connectionId now] }, 200)

/-- `getUserConnections` (lines 182-199): the user's connections whose
`disconnectedAt` attribute does not exist. -/
def getUserConnections (db : DB) (userId : String) : List Connection :=
  db.connections.filter (fun c => c.userId == some userId && c.disconnectedAt == none)

/-- The deliveries of the `send`-to-every-live-connection loop for one
target (a `none` target is DynamoDB-rejected and yields no deliveries). -/
def sendAll (db : DB) (target : Option String) (msg : OutMessage) :
    List (String × OutMessage) :=
  match target with
  | none => []
  | some u => (getUserConnections db u).map (fun c => (c.connectionId, msg))

/-- The outbound `location_update` message (lines 130-136). -/
def locMsg (rideId senderId : String) (location : Option Location) (now : String) :
    OutMessage :=
  { type := "location_update", rideId := rideId, userId := some senderId,
    location := location, status := none, message := none, timestamp := now }

/-- The outbound `ride_status_update` message (lines 167-173). -/
def statusMsg (rideId : String) (status message : Option String) (now : String) :
    OutMessage :=
  { type := "ride_status_update", rideId := rideId, userId := none,
    location := none, status := status, message := message, timestamp := now }

/-- `handleLocationUpdate(connectionId, data)` (lines 103-142): resolve the
ride, target `[ride.userId, ride.driverId]` minus the sender id claimed in
the message body, and deliver to every live connection of each target.  The
`connectionId` of the sending socket is accepted but never used, exactly as
in the source. -/
def handleLocationUpdate (db : DB) (_connectionId senderId : String)
    (location : Option Location) (rideId : Option String) (now : String) :
    List (String × OutMessage) :=
  match rideId with
  | none => []
  | some rid =>
    match db.getRide rid with
    | none => []
    | some ride =>
      let msg := locMsg rid senderId location now
      (([some ride.userId, ride.driverId]).filter (fun id => id ≠ some senderId)).flatMap
        (fun target => sendAll db target msg)

/-- `handleRideStatusUpdate(connectionId, data)` (lines 145-179): resolve
the ride and deliver to every live connection of both `ride.userId` and
`ride.driverId` — no sender is excluded.  (`rideId = none` models an absent
`rideId`, whose storage lookup fails and is caught.) -/
def handleRideStatusUpdate (db : DB) (_connectionId : String)
    (rideId : Option String) (status message : Option String) (now : String) :
    List (String × OutMessage) :=
  match rideId with
  | none => []
  | some rid =>
    match db.getRide rid with
    | none => []
    | some ride =>
      let msg := statusMsg rid status message now
      ([some ride.userId, ride.driverId]).flatMap (fun target => sendAll db target msg)

/-! ## Ride lifecycle vocabulary (spec section 4.1) -/

/-- The states in which the spec requires `driverId` to be non-null. -/
def driverIdStates : List String :=
  ["matched", "en-route", "arrived", "in-progress", "completed"]

/-- Spec invariant: `driverId` is non-null iff the state is at or past
`matched` and not `cancelled`. -/
def rideInvariant (r : Ride) : Prop :=
  r.driverId ≠ none ↔ r.status ∈ driverIdStates

/-- The non-terminal ride states. -/
def nonTerminalStates : List String :=
  ["requested", "matched", "en-route", "arrived", "in-progress"]

/-! ## Concrete fixtures -/

/-- A freshly requested ride of rider u1 (as `requestRide` creates it). -/
noncomputable def rideRequested : Ride :=
  { rideId := "r1", userId := "u1", driverId := none, status := "requested",
    rideType := "standard",
    pickupLocation := { lat := 37, lng := -122, address := "A St" },
    dropoffLocation := { lat := 38, lng := -122, address := "B St" },
    estimatedDistance := 0, estimatedFare := 10, actualFare := none,
    createdAt := "t0", matchedAt := none, startedAt := none,
    completedAt := none, updatedAt := none }

/-- An available, active driver d1. -/
def driverA : Driver :=
  { driverId := "d1", licenseNumber := "LIC-A-0001", status := "available",
    rating := 5, totalRides := 0, isActive := true,
    location := some { lat := 0, lng := 0 }, locationHash := some (0, 0),
    updatedAt := none }

/-- An available, active driver d2. -/
def driverB : Driver :=
  { driverA with driverId := "d2", licenseNumber := "LIC-B-0002" }

/-- Store contents for the concurrent-acceptance run: one `requested` ride,
two `available` drivers. -/
noncomputable def raceDb : DB :=
  { rides := [rideRequested], drivers := [driverA, driverB], connections := [] }

/-- Two `acceptRide` calls against ride r1, by d1 and by d2. -/
def raceCalls : List AcceptCall :=
  [{ driverId := "d1", rideId := "r1", now := "t1", phase := .start },
   { driverId := "d2", rideId := "r1", now := "t2", phase := .start }]

/-- An interleaving in which both calls read the ride (still `requested`)
before either writes: d1 reads the ride, d2 reads the ride, d1 finishes all
its steps, d2 finishes all its steps. -/
def raceSched : List ℕ := [0, 1, 0, 0, 0, 1, 1, 1]

/-- A bearer token for rider u1 (validly signed). -/
def tokenU1 : Token := { payload := some { sub := some "u1", email := none, userType := none }, signatureValid := true }

/-- A ride request body that passes the Joi schema. -/
def validBody : RideRequestBody :=
  { pickupLocation := { lat := 37, lng := -122, address := "A St" },
    dropoffLocation := { lat := 38, lng := -122, address := "B St" },
    rideType := some "standard" }

/-- A ride of rider u1 that completed with driver d1. -/
noncomputable def rideCompleted : Ride :=
  { rideRequested with
    driverId := some "d1", status := "completed", actualFare := some 12,
    matchedAt := some "t1", startedAt := some "t2", completedAt := some "t3" }

/-- Store contents with the completed ride and its driver. -/
noncomputable def dbCompleted : DB :=
  { rides := [rideCompleted], drivers := [{ driverA with status := "busy" }],
    connections := [] }

/-- Store contents in which rider u1 already has a `requested` ride. -/
noncomputable def dbOneRide : DB :=
  { rides := [rideRequested], drivers := [], connections := [] }

/-! ## C1-C4: ride state machine claims -/

/-- C1: refuted on the code.  For the `requested` ride r1 and the two
concurrent `acceptRide` calls by the distinct available drivers d1 and d2,
the interleaving `raceSched` (both calls read the ride before either
writes, which the unconditioned read-then-write in the handler permits)
makes BOTH calls return 200: no call fails with `AlreadyMatched`, the ride's
final `driverId` is the last writer d2 even though d1's call also reported
success, and both drivers were forced to `busy`.  This refutes the claim
that exactly one concurrent `acceptRide` call succeeds. -/
theorem acceptRide_race_two_winners :
    ((runSchedule raceDb raceCalls raceSched).2.map (fun c => c.phase.result?)
       = [some .accepted, some .accepted])
    ∧ (((runSchedule raceDb raceCalls raceSched).1.getRide "r1").map Ride.driverId
       = some (some "d2"))
    ∧ (((runSchedule raceDb raceCalls raceSched).1.getDriver "d1").map Driver.status
       = some "busy")
    ∧ (((runSchedule raceDb raceCalls raceSched).1.getDriver "d2").map Driver.status
       = some "busy") := by
  refine ⟨by decide, by decide, by decide, by decide⟩

/-- C2: refuted on the code.  `updateRideStatus` validates only membership
of the target status in `validStatuses` and never inspects the ride's
current state, so a ride in the terminal state `completed` accepts a
further `updateRideStatus` to `en-route` with 200 and is mutated, instead
of being rejected with `InvalidTransition` and left unchanged. -/
theorem updateRideStatus_completed_accepts_enroute :
    ((updateRideStatus dbCompleted tokenU1 "r1" "en-route" "t9").2 = .updated)
    ∧ (((updateRideStatus dbCompleted tokenU1 "r1" "en-route" "t9").1.getRide "r1").map
        Ride.status = some "en-route") := by
  refine ⟨by decide, by decide⟩

/-- C3: refuted on the code.  Starting from an empty store, `requestRide`
creates a `requested` ride with `driverId = null`, and the rider can then
move it straight to `en-route` through `updateRideStatus` (which checks no
transition legality), reaching a state where `status = en-route` — a state
in which the spec requires a non-null `driverId` — while `driverId` is
still null.  The driverId/state invariant is therefore not preserved by the
reachable states of `requestRide`/`acceptRide`/`updateRideStatus`. -/
theorem driverId_invariant_violated_reachable :
    ∃ r : Ride,
      ((updateRideStatus
          (requestRide { rides := [], drivers := [], connections := [] }
            tokenU1 validBody "ride-1" "t1").1
          tokenU1 "ride-1" "en-route" "t2").1.getRide "ride-1") = some r
      ∧ r.status = "en-route" ∧ r.driverId = none ∧ ¬ rideInvariant r := by
  have h :
      (((updateRideStatus
          (requestRide { rides := [], drivers := [], connections := [] }
            tokenU1 validBody "ride-1" "t1").1
          tokenU1 "ride-1" "en-route" "t2").1.getRide "ride-1").map
        (fun r => (r.status, r.driverId))) = some ("en-route", none) := by
    decide
  rcases Option.map_eq_some'.mp h with ⟨r, hr, hpair⟩
  have hst : r.status = "en-route" := congrArg Prod.fst hpair
  have hdr : r.driverId = none := congrArg Prod.snd hpair
  refine ⟨r, hr, hst, hdr, ?_⟩
  rw [rideInvariant, hst, hdr]
  decide

/-- C4: refuted on the code.  The duplicate-ride guard queries the rider's
rides with `status = 'active'`, a value no ride ever has (the handler's own
status enum is requested/matched/en-route/in-progress/completed/cancelled),
so a rider who already has a ride in the non-terminal state `requested`
gets a second ride created with 201 instead of a 409 `DuplicateActiveRide`. -/
theorem requestRide_duplicate_not_rejected :
    ("requested" ∈ nonTerminalStates)
    ∧ ((requestRide dbOneRide tokenU1 validBody "ride-2" "t5").2.statusCode = 201)
    ∧ ((requestRide dbOneRide tokenU1 validBody "ride-2" "t5").1.rides.map
        (fun r => (r.rideId, r.userId, r.status))
       = [("r1", "u1", "requested"), ("ride-2", "u1", "requested")]) := by
  refine ⟨by decide, by decide, by decide⟩

/-! ## Evaluating the haversine formula on meridian inputs -/

lemma atan2_sin_cos (x : ℝ) (h0 : 0 ≤ x) (h1 : x < Real.pi / 2) :
    atan2 (Real.sqrt (Real.sin x * Real.sin x))
      (Real.sqrt (1 - Real.sin x * Real.sin x)) = x := by
  have hpi := Real.pi_pos
  have hsin : 0 ≤ Real.sin x :=
    Real.sin_nonneg_of_nonneg_of_le_pi h0 (by linarith)
  have hcos : 0 < Real.cos x :=
    Real.cos_pos_of_mem_Ioo ⟨by linarith, h1⟩
  have hs : Real.sqrt (Real.sin x * Real.sin x) = Real.sin x :=
    Real.sqrt_mul_self hsin
  have h1s : 1 - Real.sin x * Real.sin x = Real.cos x * Real.cos x := by
    have hpyth := Real.sin_sq_add_cos_sq x
    nlinarith [hpyth]
  have hc : Real.sqrt (1 - Real.sin x * Real.sin x) = Real.cos x := by
    rw [h1s, Real.sqrt_mul_self hcos.le]
  rw [hs, hc]
  unfold atan2
  rw [if_pos hcos, ← Real.tan_eq_sin_div_cos,
    Real.arctan_tan (by linarith) h1]

/-- On a meridian through the origin the haversine formula evaluates to
arc length: `calculateDistance 0 0 lat 0 = 6371 * (lat * π / 180)`. -/
lemma calculateDistance_meridian (lat : ℚ) (h0 : 0 ≤ (lat : ℝ))
    (h1 : (lat : ℝ) * Real.pi / 180 / 2 < Real.pi / 2) :
    calculateDistance 0 0 lat 0 = 6371 * ((lat : ℝ) * Real.pi / 180) := by
  simp only [calculateDistance]
  push_cast
  rw [show ((lat : ℝ) - 0) * Real.pi / 180 = (lat : ℝ) * Real.pi / 180 from by ring,
    show ((0 : ℝ) - 0) * Real.pi / 180 = 0 from by ring,
    show (0 : ℝ) / 2 = 0 from by ring,
    show (0 : ℝ) * Real.pi / 180 = 0 from by ring]
  rw [Real.sin_zero, Real.cos_zero]
  rw [show Real.sin ((lat : ℝ) * Real.pi / 180 / 2) * Real.sin ((lat : ℝ) * Real.pi / 180 / 2)
        + 1 * Real.cos ((lat : ℝ) * Real.pi / 180) * (0 * 0)
      = Real.sin ((lat : ℝ) * Real.pi / 180 / 2) * Real.sin ((lat : ℝ) * Real.pi / 180 / 2)
      from by ring]
  rw [atan2_sin_cos ((lat : ℝ) * Real.pi / 180 / 2) (by positivity) h1]
  ring

/-- The driver sitting 0.03 degrees of latitude north of the query point is
about 3.34 km away, within a 5 km radius. -/
lemma dist_north_within_radius : calculateDistance 0 0 (3 / 100) 0 ≤ 5 := by
  have hpi := Real.pi_pos
  have h4 := Real.pi_le_four
  have hcast : (((3 : ℚ) / 100 : ℚ) : ℝ) = 3 / 100 := by norm_num
  rw [calculateDistance_meridian (3 / 100) (by rw [hcast]; norm_num)
      (by rw [hcast]; nlinarith), hcast]
  nlinarith

/-- The haversine distance from a point to itself is 0. -/
lemma dist_self_zero : calculateDistance 0 0 0 0 = 0 := by
  have hpi := Real.pi_pos
  have hcast : (((0 : ℚ)) : ℝ) = 0 := by norm_num
  rw [calculateDistance_meridian 0 (by rw [hcast]) (by rw [hcast]; nlinarith), hcast]
  ring

/-! ## Evaluating the bucket ring of a 5 km query at the origin -/

/-- `Math.ceil(5 / 111.32) = 1`: the ring of a 5 km query is one grid cell. -/
lemma steps_of_radius5 : (⌈(5 : ℚ) / (11132 / 100)⌉ : ℤ) = 1 := by
  rw [Int.ceil_eq_iff]
  norm_num

/-- The hash of the cell centre `(i * 0.01, j * 0.01)` is `(i, j)`. -/
lemma hash_cell_origin (i j : ℤ) :
    generateLocationHash (0 + (i : ℚ) * (1 / 100)) (0 + (j : ℚ) * (1 / 100)) = (i, j) := by
  unfold generateLocationHash
  have hi : ((0 : ℚ) + (i : ℚ) * (1 / 100)) * 100 = (i : ℚ) := by ring
  have hj : ((0 : ℚ) + (j : ℚ) * (1 / 100)) * 100 = (j : ℚ) := by ring
  rw [hi, hj, Int.floor_intCast, Int.floor_intCast]

/-- The bucket ring queried for a 5 km radius at the origin: the 3 x 3
block of cells around cell (0,0). -/
lemma ring_origin_radius5 :
    generateNearbyLocationHashes 0 0 5 =
      [(-1, -1), (-1, 0), (-1, 1), (0, -1), (0, 0), (0, 1), (1, -1), (1, 0), (1, 1)] := by
  simp only [generateNearbyLocationHashes]
  rw [steps_of_radius5]
  rw [show intRangeIncl (-1) 1 = [-1, 0, 1] from by decide]
  simp only [List.flatMap_cons, List.flatMap_nil, List.map_cons, List.map_nil,
    List.append_nil, hash_cell_origin]
  decide

/-- The bucket of the driver at latitude 0.03, longitude 0. -/
lemma hash_far : generateLocationHash (3 / 100) 0 = (3, 0) := by
  unfold generateLocationHash
  norm_num [Prod.ext_iff]

/-! ## C5: the bucket pre-filter ring does not cover the radius -/

/-- An available, active driver 0.03 degrees of latitude north of the
origin, stored under its correctly derived location hash. -/
def driverFar : Driver :=
  { driverId := "d5", licenseNumber := "LIC-E-0005", status := "available",
    rating := 5, totalRides := 0, isActive := true,
    location := some { lat := 3 / 100, lng := 0 },
    locationHash := some (generateLocationHash (3 / 100) 0),
    updatedAt := none }

/-- Store contents for the pre-filter counterexample. -/
def dbFar : DB := { rides := [], drivers := [driverFar], connections := [] }

/-- C5: refuted on the code.  `generateNearbyLocationHashes` computes
`steps = ceil(radiusKm / 111.32)`, i.e. it converts the radius to whole
degrees but then walks that many 0.01-degree grid cells, so for a 5 km
radius the ring spans only one cell (about 1.1 km) around the query point.
The available, active driver at latitude 0.03 (bucket (3,0), true haversine
distance about 3.34 km ≤ 5 km) is not in any queried bucket and is missing
from the bucket pre-filter stage of `getNearbyDrivers`: a false negative
well inside the radius. -/
theorem bucket_prefilter_false_negative :
    (calculateDistance 0 0 (3 / 100) 0 ≤ 5)
    ∧ driverFar.status = "available"
    ∧ driverFar.isActive = true
    ∧ driverFar.locationHash = some (3, 0)
    ∧ ((3, 0) ∉ generateNearbyLocationHashes 0 0 5)
    ∧ driverFar ∉ bucketCandidates dbFar 0 0 5 := by
  have hlh : driverFar.locationHash = some ((3 : ℤ), (0 : ℤ)) := by
    show some (generateLocationHash (3 / 100) 0) = _
    rw [hash_far]
  refine ⟨dist_north_within_radius, rfl, rfl, hlh, ?_, ?_⟩
  · rw [ring_origin_radius5]; decide
  · intro hmem
    unfold bucketCandidates at hmem
    rw [ring_origin_radius5] at hmem
    rcases List.mem_flatMap.mp hmem with ⟨h, hh, hq⟩
    rcases List.mem_filter.mp hq with ⟨-, hflags⟩
    rw [hlh] at hflags
    simp only [Bool.and_eq_true, beq_iff_eq, Option.some.injEq] at hflags
    rw [← hflags.1.1] at hh
    exact absurd hh (by decide)

/-! ## C6: the exact-distance filter is sound (no false positives) -/

/-- Everything membership in the `getNearbyDrivers` response implies about
the returned record: it is one of the stored driver records, it passed the
availability filter of the bucket query, and it passed the exact-distance
filter. -/
lemma mem_getNearbyDrivers_elim {db : DB} {lat lng radius : ℚ} {rd : RankedDriver}
    (h : rd ∈ getNearbyDrivers db lat lng radius) :
    rd.driver ∈ db.drivers ∧ rd.driver.status = "available"
    ∧ rd.driver.isActive = true ∧ withinRadius lat lng radius rd.driver = true := by
  letI : DecidableRel scoreGE := fun _ _ => Classical.propDecidable _
  simp only [getNearbyDrivers] at h
  have h2 := List.mem_insertionSort scoreGE |>.mp (List.take_subset 10 _ h)
  rcases List.mem_map.mp h2 with ⟨d, hd, rfl⟩
  rcases List.mem_filter.mp hd with ⟨hbc, hwr⟩
  rcases List.mem_flatMap.mp hbc with ⟨hash, _, hdq⟩
  rcases List.mem_filter.mp hdq with ⟨hmem, hflags⟩
  simp only [Bool.and_eq_true, beq_iff_eq] at hflags
  exact ⟨hmem, hflags.1.2, by simp [hflags.2], hwr⟩

/-- C6: every driver in the `getNearbyDrivers` response is `available`,
active, has a stored location, and its true haversine distance to the query
point is at most the radius: the exact-distance filter (lines 217-224 of
the driver-service handler), not bucket membership, bounds what is
returned. -/
theorem getNearbyDrivers_no_false_positives (db : DB) (lat lng radius : ℚ)
    (rd : RankedDriver) (h : rd ∈ getNearbyDrivers db lat lng radius) :
    rd.driver.status = "available" ∧ rd.driver.isActive = true
    ∧ ∃ loc, rd.driver.location = some loc
        ∧ calculateDistance lat lng loc.lat loc.lng ≤ (radius : ℝ) := by
  obtain ⟨-, hst, hact, hwr⟩ := mem_getNearbyDrivers_elim h
  refine ⟨hst, hact, ?_⟩
  unfold withinRadius at hwr
  cases hloc : rd.driver.location with
  | none => rw [hloc] at hwr; cases hwr
  | some loc =>
    rw [hloc] at hwr
    exact ⟨loc, rfl, of_decide_eq_true hwr⟩

/-! ## A one-driver store whose driver sits exactly at the query point -/

/-- An available, active driver at the origin, with the stored license
number a parameter. -/
def drvAt00 (ln : String) : Driver :=
  { driverId := "d0", licenseNumber := ln, status := "available",
    rating := 5, totalRides := 0, isActive := true,
    location := some { lat := 0, lng := 0 }, locationHash := some (0, 0),
    updatedAt := none }

/-- A store holding exactly that driver. -/
def dbOne (ln : String) : DB :=
  { rides := [], drivers := [drvAt00 ln], connections := [] }

lemma bucket_dbOne (ln : String) : bucketCandidates (dbOne ln) 0 0 5 = [drvAt00 ln] := by
  unfold bucketCandidates
  rw [ring_origin_radius5]
  rfl

lemma within_origin (ln : String) : withinRadius 0 0 5 (drvAt00 ln) = true := by
  show decide (calculateDistance 0 0 0 0 ≤ ((5 : ℚ) : ℝ)) = true
  rw [decide_eq_true_eq, dist_self_zero]
  norm_num

/-- The 5 km query at the origin against the one-driver store returns
exactly that driver (whatever its license number). -/
lemma nearby_dbOne (ln : String) :
    getNearbyDrivers (dbOne ln) 0 0 5
      = [{ driver := drvAt00 ln, distance := locatedDistance 0 0 (drvAt00 ln) }] := by
  simp only [getNearbyDrivers]
  rw [bucket_dbOne]
  rw [show List.filter (withinRadius 0 0 5) [drvAt00 ln] = [drvAt00 ln] from by
    simp [List.filter_cons, within_origin]]
  simp [List.insertionSort, List.orderedInsert]

/-- C6 witness: the driver at the query point is returned by the 5 km
query and satisfies all the guarantees of the no-false-positives theorem. -/
theorem getNearbyDrivers_no_false_positives_witness :
    (({ driver := drvAt00 "LIC-W-0006",
        distance := locatedDistance 0 0 (drvAt00 "LIC-W-0006") } : RankedDriver)
       ∈ getNearbyDrivers (dbOne "LIC-W-0006") 0 0 5)
    ∧ ((drvAt00 "LIC-W-0006").status = "available"
       ∧ (drvAt00 "LIC-W-0006").isActive = true
       ∧ ∃ loc, (drvAt00 "LIC-W-0006").location = some loc
           ∧ calculateDistance 0 0 loc.lat loc.lng ≤ ((5 : ℚ) : ℝ)) := by
  have hmem : ({ driver := drvAt00 "LIC-W-0006"
                 distance := locatedDistance 0 0 (drvAt00 "LIC-W-0006") } : RankedDriver)
      ∈ getNearbyDrivers (dbOne "LIC-W-0006") 0 0 5 := by
    rw [nearby_dbOne]
    exact List.mem_singleton.mpr rfl
  exact ⟨hmem, getNearbyDrivers_no_false_positives _ _ _ _ _ hmem⟩

/-! ## C10: the nearby-drivers response carries the unmasked license -/

/-- A store with a driver whose license number is sensitive. -/
def dbProf : DB :=
  { rides := [], drivers := [drvAt00 "SECRET-1234"], connections := [] }

/-- A bearer token for driver d0. -/
def tokenD0 : Token :=
  { payload := some { sub := some "d0", email := none, userType := none },
    signatureValid := true }

/-- C10: confirmed.  The `getNearbyDrivers` response spreads the entire
stored driver record (every returned record is one of the stored records,
license number included), so two stores differing only in an in-range
available driver's `licenseNumber` produce different responses; by
contrast, `getDriverProfile` masks the license number to `'***'` plus its
last four characters. -/
theorem nearby_response_exposes_license :
    (getNearbyDrivers (dbOne "PLATE-1111") 0 0 5
       ≠ getNearbyDrivers (dbOne "PLATE-2222") 0 0 5)
    ∧ (∀ (db : DB) (lat lng radius : ℚ) (rd : RankedDriver),
        rd ∈ getNearbyDrivers db lat lng radius → rd.driver ∈ db.drivers)
    ∧ (getDriverProfile dbProf tokenD0
        = .profile { drvAt00 "SECRET-1234" with licenseNumber := "***1234" }) := by
  refine ⟨?_, ?_, ?_⟩
  · rw [nearby_dbOne, nearby_dbOne]
    intro h
    have hl := congrArg
      (fun l : List RankedDriver =>
        (l.headD { driver := drvAt00 "?", distance := 0 }).driver.licenseNumber) h
    exact absurd hl (by decide)
  · intro db lat lng radius rd h
    exact (mem_getNearbyDrivers_elim h).1
  · decide

/-- C10 witness: a concrete returned record whose driver is literally one
of the stored records (unmasked license included). -/
theorem nearby_response_exposes_license_witness :
    (({ driver := drvAt00 "PLATE-3333",
        distance := locatedDistance 0 0 (drvAt00 "PLATE-3333") } : RankedDriver)
       ∈ getNearbyDrivers (dbOne "PLATE-3333") 0 0 5)
    ∧ drvAt00 "PLATE-3333" ∈ (dbOne "PLATE-3333").drivers := by
  have hmem : ({ driver := drvAt00 "PLATE-3333"
                 distance := locatedDistance 0 0 (drvAt00 "PLATE-3333") } : RankedDriver)
      ∈ getNearbyDrivers (dbOne "PLATE-3333") 0 0 5 := by
    rw [nearby_dbOne]
    exact List.mem_singleton.mpr rfl
  exact ⟨hmem, nearby_response_exposes_license.2.1 _ _ _ _ _ hmem⟩

/-! ## C7: fanout target sets -/

/-- Ride r1 of rider u1, en route with driver d1. -/
noncomputable def rideEnRoute : Ride :=
  { rideRequested with driverId := some "d1", status := "en-route", matchedAt := some "t1" }

/-- A live connection of rider u1. -/
def connA : Connection :=
  { connectionId := "cA", userId := some "u1", userType := some "rider",
    connectedAt := some "t0", lastActivity := some "t0", disconnectedAt := none }

/-- A live connection of driver d1. -/
def connB : Connection :=
  { connectionId := "cB", userId := some "d1", userType := some "driver",
    connectedAt := some "t0", lastActivity := some "t0", disconnectedAt := none }

/-- Store contents for the fanout runs: the en-route ride and one live
connection of each party. -/
noncomputable def fanDb : DB :=
  { rides := [rideEnRoute], drivers := [], connections := [connA, connB] }

/-- C7 counterexample: driver d1, connected on cB, sends a
`ride_status_update` for its own ride, and the fanout delivers the message
back to d1's own connection cB — the sender receives its own echo, because
`handleRideStatusUpdate` targets both parties without excluding the sender.
This refutes the claim that the sender never receives its own echo for
either message type. -/
theorem rideStatusUpdate_echoes_sender :
    (("cB", statusMsg "r1" (some "arrived") none "t7")
       ∈ handleRideStatusUpdate fanDb "cB" (some "r1") (some "arrived") none "t7")
    ∧ connB.userId = some "d1"
    ∧ rideEnRoute.driverId = some "d1" := by
  refine ⟨by decide, rfl, rfl⟩

/-- C7 as amended: on a `location_update` the fanout resolves the ride's
rider and driver ids and delivers the message exactly to the live
connections of the parties other than the sender claimed in the message
(the sender is excluded); on a `ride_status_update` it delivers to every
live connection of both the rider and the driver, the sender included. -/
theorem fanout_target_sets (db : DB) (cid sender : String) (loc : Option Location)
    (rid : String) (st mt : Option String) (now : String) (ride : Ride)
    (h : db.getRide rid = some ride) :
    (∀ p ∈ handleLocationUpdate db cid sender loc (some rid) now,
        p.2 = locMsg rid sender loc now
        ∧ ∃ u, (u = ride.userId ∨ some u = ride.driverId) ∧ u ≠ sender
            ∧ ∃ c ∈ getUserConnections db u, p.1 = c.connectionId)
    ∧ (∀ u, (u = ride.userId ∨ some u = ride.driverId) → u ≠ sender →
        ∀ c ∈ getUserConnections db u,
          (c.connectionId, locMsg rid sender loc now)
            ∈ handleLocationUpdate db cid sender loc (some rid) now)
    ∧ (∀ u, (u = ride.userId ∨ some u = ride.driverId) →
        ∀ c ∈ getUserConnections db u,
          (c.connectionId, statusMsg rid st mt now)
            ∈ handleRideStatusUpdate db cid (some rid) st mt now) := by
  simp only [handleLocationUpdate, handleRideStatusUpdate, h]
  refine ⟨?_, ?_, ?_⟩
  · intro p hp
    rcases List.mem_flatMap.mp hp with ⟨t, ht, hpt⟩
    rcases List.mem_filter.mp ht with ⟨htmem, htne⟩
    cases t with
    | none => simp [sendAll] at hpt
    | some u =>
      rcases List.mem_map.mp (by simpa [sendAll] using hpt) with ⟨c, hc, rfl⟩
      have hune : u ≠ sender := by
        intro heq
        rw [decide_eq_true_eq] at htne
        exact htne (by rw [heq])
      have humem : u = ride.userId ∨ some u = ride.driverId := by
        rcases List.mem_cons.mp htmem with h1 | h2
        · exact Or.inl (Option.some.inj h1)
        · exact Or.inr (List.mem_singleton.mp h2)
      exact ⟨rfl, u, humem, hune, c, hc, rfl⟩
  · intro u hu hne c hc
    refine List.mem_flatMap.mpr ⟨some u, List.mem_filter.mpr ⟨?_, ?_⟩, ?_⟩
    · rcases hu with rfl | hu
      · exact List.mem_cons_self _ _
      · rw [hu]
        exact List.mem_cons_of_mem _ (List.mem_singleton.mpr rfl)
    · rw [decide_eq_true_eq]
      intro heq
      exact hne (Option.some.inj heq)
    · exact List.mem_map.mpr ⟨c, hc, rfl⟩
  · intro u hu c hc
    refine List.mem_flatMap.mpr ⟨some u, ?_, List.mem_map.mpr ⟨c, hc, rfl⟩⟩
    rcases hu with rfl | hu
    · exact List.mem_cons_self _ _
    · rw [hu]
      exact List.mem_cons_of_mem _ (List.mem_singleton.mpr rfl)

/-- C7 witness: with the concrete store, driver d1 (on connection cB)
pushes a location update for ride r1; rider u1 is a party other than the
sender, and u1's live connection cA receives the message. -/
theorem fanout_target_sets_witness :
    (fanDb.getRide "r1" = some rideEnRoute)
    ∧ ("u1" = rideEnRoute.userId)
    ∧ ("u1" ≠ "d1")
    ∧ (connA ∈ getUserConnections fanDb "u1")
    ∧ (("cA", locMsg "r1" "d1" none "t7")
        ∈ handleLocationUpdate fanDb "cB" "d1" none (some "r1") "t7") := by
  have h : fanDb.getRide "r1" = some rideEnRoute := rfl
  refine ⟨h, rfl, by decide, by decide, ?_⟩
  exact (fanout_target_sets fanDb "cB" "d1" none "r1" (some "arrived") none "t7"
    rideEnRoute h).2.1 "u1" (Or.inl rfl) (by decide) connA (by decide)

/-! ## C8: deregister -/

/-- A second live connection of rider u1. -/
def connC : Connection :=
  { connA with connectionId := "cC" }

/-- A store with the single live connection cA. -/
def dbConn : DB := { rides := [], drivers := [], connections := [connA] }

/-- A store with the two live connections cA and cC of rider u1. -/
def dbConn2 : DB := { rides := [], drivers := [], connections := [connA, connC] }

/-- C8 counterexample: `disconnect` unconditionally overwrites
`disconnectedAt` with the current time, so a second `deregister` of the
same connection id at a later timestamp changes the stored connection
record (its `disconnectedAt` moves from t1 to t2) instead of leaving it
unchanged relative to the first call. -/
theorem deregister_second_call_changes_record :
    ((disconnect (disconnect dbConn "cA" "t1").1 "cA" "t2").1.connections
      ≠ (disconnect dbConn "cA" "t1").1.connections) := by
  decide

lemma markDisc_connectionId (cid t : String) (c : Connection) :
    (markDisc cid t c).connectionId = c.connectionId := by
  unfold markDisc
  split
  · rfl
  · rfl

lemma markDisc_idem (cid t : String) (c : Connection) :
    markDisc cid t (markDisc cid t c) = markDisc cid t c := by
  by_cases h : (c.connectionId == cid) = true
  · have h1 : markDisc cid t c = { c with disconnectedAt := some t } := by
      unfold markDisc
      rw [if_pos h]
    rw [h1]
    unfold markDisc
    rw [if_pos (show ({ c with disconnectedAt := some t } : Connection).connectionId == cid
        from h)]
  · have h1 : markDisc cid t c = c := by
      unfold markDisc
      rw [if_neg h]
    rw [h1, h1]

lemma any_map_markDisc (cid t : String) (l : List Connection) :
    ((l.map (markDisc cid t)).any (fun c => c.connectionId == cid))
      = l.any (fun c => c.connectionId == cid) := by
  rw [List.any_map]
  rw [show ((fun (c : Connection) => c.connectionId == cid) ∘ markDisc cid t)
      = (fun (c : Connection) => c.connectionId == cid) from funext fun c => by
        simp only [Function.comp_apply, markDisc_connectionId]]

/-- Every connection record carrying the deregistered id has its
`disconnectedAt` set to the call's timestamp afterwards. -/
lemma disconnect_marks (db : DB) (cid t : String) :
    ∀ c ∈ ((disconnect db cid t).1).connections,
      c.connectionId = cid → c.disconnectedAt = some t := by
  intro c hc hceq
  unfold disconnect at hc
  by_cases h : (db.connections.any fun c => c.connectionId == cid) = true
  · rw [if_pos h] at hc
    rcases List.mem_map.mp hc with ⟨c0, _, rfl⟩
    unfold markDisc at hceq ⊢
    by_cases h0 : (c0.connectionId == cid) = true
    · rw [if_pos h0]
    · rw [if_neg h0] at hceq ⊢
      exact absurd (by rw [hceq]; exact beq_self_eq_true cid) h0
  · rw [if_neg h] at hc
    rcases List.mem_append.mp hc with h1 | h2
    · have hfalse : (c.connectionId == cid) = false := by
        have hne := List.any_eq_false.mp (Bool.eq_false_iff.mpr h) c h1
        cases hbe : (c.connectionId == cid)
        · rfl
        · exact absurd hbe hne
      have htrue : (c.connectionId == cid) = true := by
        rw [hceq]
        exact beq_self_eq_true cid
      rw [hfalse] at htrue
      exact absurd htrue Bool.false_ne_true
    · rw [List.mem_singleton.mp h2]
      rfl

/-- C8 as amended: a second `deregister` of the same connection id never
errors (it answers 200), and after a `deregister` no connection with that
id is ever selected by the live-connection lookup; the second call
overwrites `disconnectedAt` with its own timestamp, so the store is
unchanged exactly when the second call carries the same timestamp as the
first. -/
theorem deregister_idempotent_liveness (db : DB) (cid t1 t2 : String) :
    ((disconnect (disconnect db cid t1).1 cid t2).2 = 200)
    ∧ ((disconnect (disconnect db cid t1).1 cid t1).1 = (disconnect db cid t1).1)
    ∧ (∀ u c, c ∈ getUserConnections (disconnect db cid t1).1 u → c.connectionId ≠ cid) := by
  refine ⟨?_, ?_, ?_⟩
  · unfold disconnect
    split
    · split
      · rfl
      · rfl
    · split
      · rfl
      · rfl
  · unfold disconnect
    by_cases h : (db.connections.any fun c => c.connectionId == cid) = true
    · rw [if_pos h]
      dsimp only
      rw [if_pos (by rw [any_map_markDisc]; exact h)]
      dsimp only
      have hmap : List.map (markDisc cid t1) (List.map (markDisc cid t1) db.connections)
          = List.map (markDisc cid t1) db.connections := by
        rw [List.map_map]
        apply List.map_congr_left
        intro c _
        exact markDisc_idem cid t1 c
      rw [hmap]
    · rw [if_neg h]
      dsimp only
      have hany : ((db.connections ++ [discOnly cid t1]).any
          (fun c => c.connectionId == cid)) = true := by
        rw [List.any_append]
        have hd : ((discOnly cid t1).connectionId == cid) = true := beq_self_eq_true cid
        simp [hd]
      rw [if_pos hany]
      dsimp only
      have hmap : List.map (markDisc cid t1) (db.connections ++ [discOnly cid t1])
          = db.connections ++ [discOnly cid t1] := by
        rw [List.map_append]
        have h1 : List.map (markDisc cid t1) db.connections = db.connections := by
          have hid : ∀ c ∈ db.connections, markDisc cid t1 c = id c := by
            intro c hc
            have hne := List.any_eq_false.mp (Bool.eq_false_iff.mpr h) c hc
            have hfalse : (c.connectionId == cid) = false := by
              cases hbe : (c.connectionId == cid)
              · rfl
              · exact absurd hbe hne
            unfold markDisc
            rw [if_neg (by rw [hfalse]; exact Bool.false_ne_true)]
            rfl
          rw [List.map_congr_left hid, List.map_id]
        have h2 : List.map (markDisc cid t1) [discOnly cid t1] = [discOnly cid t1] := by
          have hdm : markDisc cid t1 (discOnly cid t1) = discOnly cid t1 := by
            unfold markDisc
            rw [if_pos (show ((discOnly cid t1).connectionId == cid) = true
              from beq_self_eq_true cid)]
            rfl
          rw [List.map_cons, List.map_nil, hdm]
        rw [h1, h2]
      rw [hmap]
  · intro u c hc hceq
    rcases List.mem_filter.mp hc with ⟨hmem, hflags⟩
    have hd := disconnect_marks db cid t1 c hmem hceq
    simp only [Bool.and_eq_true, beq_iff_eq] at hflags
    rw [hd] at hflags
    exact Option.noConfusion hflags.2

/-- C8 witness: after deregistering cA (twice, the second answering 200),
the other live connection cC of the same user is still returned by the
live-connection lookup, and the theorem applies to it: its id differs from
the deregistered one. -/
theorem deregister_idempotent_liveness_witness :
    ((disconnect (disconnect dbConn2 "cA" "t1").1 "cA" "t2").2 = 200)
    ∧ ((disconnect (disconnect dbConn2 "cA" "t1").1 "cA" "t1").1
        = (disconnect dbConn2 "cA" "t1").1)
    ∧ (connC ∈ getUserConnections (disconnect dbConn2 "cA" "t1").1 "u1")
    ∧ connC.connectionId ≠ "cA" := by
  refine ⟨(deregister_idempotent_liveness dbConn2 "cA" "t1" "t2").1,
    (deregister_idempotent_liveness dbConn2 "cA" "t1" "t2").2.1, by decide, ?_⟩
  exact (deregister_idempotent_liveness dbConn2 "cA" "t1" "t2").2.2 "u1" connC (by decide)

/-! ## C9: authentication is jwt.decode only -/

/-- A syntactically well-formed token naming driver d1 whose signature
would NOT verify. -/
def forgedD1 : Token :=
  { payload := some { sub := some "d1", email := none, userType := none },
    signatureValid := false }

/-- C9: confirmed.  The `validateToken` helper used by `requestRide`,
`acceptRide` and `updateRideStatus` is `jwt.decode` plus a check that a
`sub` field exists: its result is independent of whether the token's
signature verifies, any well-formed payload with a non-empty `sub = U` is
accepted as user U, and in particular the unsigned token for d1 drives
`acceptRide` to assign ride r1 to d1. -/
theorem unsigned_token_authenticates :
    (∀ (p : JwtPayload) (sig sig' : Bool),
        validateToken { payload := some p, signatureValid := sig }
          = validateToken { payload := some p, signatureValid := sig' })
    ∧ (∀ (p : JwtPayload) (s : String), p.sub = some s → s ≠ "" →
        validateToken { payload := some p, signatureValid := false } = .ok p)
    ∧ ((acceptRideSeq raceDb forgedD1 "r1" "t1").2 = .accepted
       ∧ (((acceptRideSeq raceDb forgedD1 "r1" "t1").1.getRide "r1").map Ride.driverId
           = some (some "d1"))) := by
  refine ⟨fun p sig sig' => rfl, ?_, by decide, by decide⟩
  intro p s hs hne
  simp only [validateToken, jwtDecode, hs]
  rw [if_neg hne]

/-- C9 witness: a concrete unsigned token with `sub = mallory` is accepted
as mallory by `validateToken`. -/
theorem unsigned_token_authenticates_witness :
    (({ sub := some "mallory", email := none, userType := none } : JwtPayload).sub
       = some "mallory")
    ∧ ("mallory" ≠ "")
    ∧ (validateToken
          { payload := some { sub := some "mallory", email := none, userType := none }
            signatureValid := false }
        = .ok { sub := some "mallory", email := none, userType := none }) :=
  ⟨rfl, by decide, unsigned_token_authenticates.2.1 _ "mallory" rfl (by decide)⟩

end Rideshare
